import Mathlib

/-!
# Verification of the webhook-events dispatch core

A shallow embedding of the `webhook_events` package: the timestamp codec
(`src/_internal/utils.py`), the event model (`src/events.py`), and the
registration and dispatch core (`src/_internal/handler.py`).

Python values decoded from JSON are modelled by `Json`; Python exceptions by
`PyError` through `Except`.  The two third-party collaborators — `json.loads`
and the Ed25519 check performed by `nacl` after hex decoding and length
checks — are passed to `handle_request` as explicit function parameters,
since only their call sites belong to this repository.
-/

/-- A JSON value as produced by `json.loads`.  Numbers are modelled as
integers: every numeric field of this wire protocol (type discriminators,
flags, and string-encoded snowflakes) is integral. -/
inductive Json where
  | null
  | bool (b : Bool)
  | num (n : Int)
  | str (s : String)
  | arr (elems : List Json)
  | obj (fields : List (String × Json))
deriving Repr, BEq

mutual

def Json.deq : (a b : Json) → Decidable (a = b)
  | .null, .null => isTrue rfl
  | .bool a, .bool b =>
    if h : a = b then isTrue (by rw [h]) else isFalse (by simp [h])
  | .num a, .num b =>
    if h : a = b then isTrue (by rw [h]) else isFalse (by simp [h])
  | .str a, .str b =>
    if h : a = b then isTrue (by rw [h]) else isFalse (by simp [h])
  | .arr a, .arr b =>
    match Json.deqList a b with
    | isTrue h => isTrue (by rw [h])
    | isFalse h => isFalse (by simp [h])
  | .obj a, .obj b =>
    match Json.deqFields a b with
    | isTrue h => isTrue (by rw [h])
    | isFalse h => isFalse (by simp [h])
  | .null, .bool _ | .null, .num _ | .null, .str _ | .null, .arr _ | .null, .obj _
  | .bool _, .null | .bool _, .num _ | .bool _, .str _ | .bool _, .arr _ | .bool _, .obj _
  | .num _, .null | .num _, .bool _ | .num _, .str _ | .num _, .arr _ | .num _, .obj _
  | .str _, .null | .str _, .bool _ | .str _, .num _ | .str _, .arr _ | .str _, .obj _
  | .arr _, .null | .arr _, .bool _ | .arr _, .num _ | .arr _, .str _ | .arr _, .obj _
  | .obj _, .null | .obj _, .bool _ | .obj _, .num _ | .obj _, .str _ | .obj _, .arr _ =>
    isFalse (by simp)

def Json.deqList : (a b : List Json) → Decidable (a = b)
  | [], [] => isTrue rfl
  | [], _ :: _ => isFalse (by simp)
  | _ :: _, [] => isFalse (by simp)
  | a :: as, b :: bs =>
    match Json.deq a b with
    | isTrue h1 =>
      match Json.deqList as bs with
      | isTrue h2 => isTrue (by rw [h1, h2])
      | isFalse h2 => isFalse (by simp [h2])
    | isFalse h1 => isFalse (by simp [h1])

def Json.deqFields : (a b : List (String × Json)) → Decidable (a = b)
  | [], [] => isTrue rfl
  | [], _ :: _ => isFalse (by simp)
  | _ :: _, [] => isFalse (by simp)
  | (k1, v1) :: as, (k2, v2) :: bs =>
    if hk : k1 = k2 then
      match Json.deq v1 v2 with
      | isTrue h1 =>
        match Json.deqFields as bs with
        | isTrue h2 => isTrue (by rw [hk, h1, h2])
        | isFalse h2 => isFalse (by simp [h2])
      | isFalse h1 => isFalse (by simp [h1])
    else isFalse (by simp [hk])

end

instance : DecidableEq Json := Json.deq

def exceptDecEq {ε α : Type} [DecidableEq ε] [DecidableEq α] :
    (a b : Except ε α) → Decidable (a = b)
  | .ok a, .ok b =>
    if h : a = b then isTrue (by rw [h]) else isFalse (by simp [h])
  | .error a, .error b =>
    if h : a = b then isTrue (by rw [h]) else isFalse (by simp [h])
  | .ok _, .error _ => isFalse (by simp)
  | .error _, .ok _ => isFalse (by simp)

instance {ε α : Type} [DecidableEq ε] [DecidableEq α] : DecidableEq (Except ε α) :=
  exceptDecEq

/-- The Python exception classes that can escape the embedded code. -/
inductive PyError where
  | keyError
  | valueError
  | typeError
  | attributeError
deriving Repr, DecidableEq

/-- Subscript access `j[k]`: `KeyError` when a dict lacks the key,
`TypeError` when the value is not a dict. -/
def jget (j : Json) (k : String) : Except PyError Json :=
  match j with
  | .obj fields =>
    match fields.lookup k with
    | some v => .ok v
    | none => .error .keyError
  | _ => .error .typeError

/-- `j.get(k)`: `None` when the key is absent, `AttributeError` when the
receiver is not a dict. -/
def pyGet (j : Json) (k : String) : Except PyError (Option Json) :=
  match j with
  | .obj fields => .ok (fields.lookup k)
  | _ => .error .attributeError

/-- Python truthiness of a decoded JSON value (`not data`). -/
def Json.isFalsy : Json → Bool
  | .null => true
  | .bool b => !b
  | .num n => n == 0
  | .str s => s.isEmpty
  | .arr elems => elems.isEmpty
  | .obj fields => fields.isEmpty

/-- Python `j == k` for an integer literal `k`: true for the equal int and
for the equal bool (Python booleans are integers); false for every other
type. -/
def pyEqInt (j : Json) (k : Int) : Bool :=
  match j with
  | .num n => n == k
  | .bool b => (if b then (1 : Int) else 0) == k
  | _ => false

/-- Python `o == k` where `o` may be `None` (from `.get`). -/
def pyOptEqInt (o : Option Json) (k : Int) : Bool :=
  match o with
  | some j => pyEqInt j k
  | none => false

def digitVal (c : Char) : Nat := c.toNat - '0'.toNat

def digitsValAux : List Char → Nat → Option Nat
  | [], acc => some acc
  | c :: rest, acc =>
    if c.isDigit then digitsValAux rest (acc * 10 + digitVal c) else none

/-- The value of a nonempty all-digit string. -/
def digitsVal : List Char → Option Nat
  | [] => none
  | c :: rest => if c.isDigit then digitsValAux rest (digitVal c) else none

def dropSpaces : List Char → List Char
  | ' ' :: rest => dropSpaces rest
  | cs => cs

/-- Model of Python `int(s)` for a string: strip surrounding spaces, then an
optional sign and a nonempty run of decimal digits. -/
def parseDecimalInt (cs : List Char) : Option Int :=
  let cs := dropSpaces cs
  let cs := (dropSpaces cs.reverse).reverse
  match cs with
  | '+' :: rest => (digitsVal rest).map Int.ofNat
  | '-' :: rest => (digitsVal rest).map (fun n => -(n : Int))
  | _ => (digitsVal cs).map Int.ofNat

/-- Model of Python `int(x)` on a decoded JSON value: identity on ints,
`True`/`False` become 1/0, strings are parsed in decimal (`ValueError` on
failure), and other types raise `TypeError`. -/
def pyInt (j : Json) : Except PyError Int :=
  match j with
  | .num n => .ok n
  | .bool b => .ok (if b then 1 else 0)
  | .str s =>
    match parseDecimalInt s.data with
    | some n => .ok n
    | none => .error .valueError
  | _ => .error .typeError

/-- The result of `datetime.fromisoformat`: a naive or offset-aware
timestamp.  `utcoffsetMinutes = none` models a naive datetime; `some m`
models `tzinfo = timezone(timedelta(minutes = m))`. -/
structure PyDatetime where
  year : Nat
  month : Nat
  day : Nat
  hour : Nat
  minute : Nat
  second : Nat
  microsecond : Nat
  utcoffsetMinutes : Option Int
deriving Repr, DecidableEq

def parse2 : List Char → Option (Nat × List Char)
  | a :: b :: rest =>
    if a.isDigit && b.isDigit then some (digitVal a * 10 + digitVal b, rest)
    else none
  | _ => none

def parse4 : List Char → Option (Nat × List Char)
  | a :: b :: c :: d :: rest =>
    if a.isDigit && b.isDigit && c.isDigit && d.isDigit then
      some (digitVal a * 1000 + digitVal b * 100 + digitVal c * 10 + digitVal d, rest)
    else none
  | _ => none

def expectChar (c : Char) : List Char → Option (List Char)
  | x :: rest => if x == c then some rest else none
  | [] => none

/-- A fractional-seconds suffix after the dot: exactly 3 or 6 digits,
yielding microseconds. -/
def parseFracDigits (cs : List Char) : Option (Nat × List Char) :=
  match cs with
  | a :: b :: c :: d :: e :: f :: rest =>
    if a.isDigit && b.isDigit && c.isDigit && d.isDigit && e.isDigit && f.isDigit then
      some (digitVal a * 100000 + digitVal b * 10000 + digitVal c * 1000 +
            digitVal d * 100 + digitVal e * 10 + digitVal f, rest)
    else if a.isDigit && b.isDigit && c.isDigit then
      some ((digitVal a * 100 + digitVal b * 10 + digitVal c) * 1000, d :: e :: f :: rest)
    else none
  | a :: b :: c :: rest =>
    if a.isDigit && b.isDigit && c.isDigit then
      some ((digitVal a * 100 + digitVal b * 10 + digitVal c) * 1000, rest)
    else none
  | _ => none

/-- `HH[:MM[:SS[.fff[fff]]]]`, returning hour, minute, second, microsecond
and the unconsumed remainder. -/
def parseTime (cs : List Char) : Option (Nat × Nat × Nat × Nat × List Char) :=
  match parse2 cs with
  | none => none
  | some (hh, rest) =>
    match rest with
    | ':' :: rest2 =>
      match parse2 rest2 with
      | none => none
      | some (mm, rest3) =>
        match rest3 with
        | ':' :: rest4 =>
          match parse2 rest4 with
          | none => none
          | some (ss, rest5) =>
            match rest5 with
            | '.' :: rest6 =>
              (parseFracDigits rest6).map (fun p => (hh, mm, ss, p.1, p.2))
            | _ => some (hh, mm, ss, 0, rest5)
        | _ => some (hh, mm, 0, 0, rest3)
    | _ => some (hh, 0, 0, 0, rest)

def isLeapYear (y : Nat) : Bool :=
  (y % 4 == 0 && y % 100 != 0) || (y % 400 == 0)

def daysInMonth (y m : Nat) : Nat :=
  if m == 2 then (if isLeapYear y then 29 else 28)
  else if m == 4 || m == 6 || m == 9 || m == 11 then 30
  else 31

/-- Model of the stdlib collaborator `datetime.fromisoformat` on the
ISO-8601 profile this codebase handles:
`YYYY-MM-DD[<sep>HH[:MM[:SS[.fff[fff]]]][±HH:MM]]` with calendar-validated
fields.  An offset-suffixed parse yields an aware result; without an offset
the result is naive.  Malformed input yields `none` (Python: `ValueError`). -/
def fromisoformatChars (cs : List Char) : Option PyDatetime := do
  let (y, r1) ← parse4 cs
  let r2 ← expectChar '-' r1
  let (mo, r3) ← parse2 r2
  let r4 ← expectChar '-' r3
  let (d, r5) ← parse2 r4
  if 1 ≤ y ∧ 1 ≤ mo ∧ mo ≤ 12 ∧ 1 ≤ d ∧ d ≤ daysInMonth y mo then
    match r5 with
    | [] => some ⟨y, mo, d, 0, 0, 0, 0, none⟩
    | _sep :: r6 => do
      let (hh, mm, ss, us, r7) ← parseTime r6
      if hh ≤ 23 ∧ mm ≤ 59 ∧ ss ≤ 59 then
        match r7 with
        | [] => some ⟨y, mo, d, hh, mm, ss, us, none⟩
        | sign :: r8 =>
          if sign == '+' ∨ sign == '-' then do
            let (oh, r9) ← parse2 r8
            let r10 ← expectChar ':' r9
            let (om, r11) ← parse2 r10
            if r11 = [] ∧ oh ≤ 23 ∧ om ≤ 59 then
              let mins : Int := (oh : Int) * 60 + (om : Int)
              some ⟨y, mo, d, hh, mm, ss, us, some (if sign == '+' then mins else -mins)⟩
            else none
          else none
      else none
  else none

/-- `s.endswith('Z')`: the string is nonempty and its last character is
`'Z'`. -/
def endsWithZ : List Char → Bool
  | [] => false
  | [c] => c == 'Z'
  | _ :: c :: cs => endsWithZ (c :: cs)

/-- `iso_to_datetime` from `src/_internal/utils.py`: if the input ends with
`'Z'`, replace that final character with `'+00:00'`, then parse with
`fromisoformat`.  `none` models the propagated `ValueError`. -/
def iso_to_datetime (iso_timestamp : String) : Option PyDatetime :=
  let cs := iso_timestamp.data
  fromisoformatChars (if endsWithZ cs then cs.dropLast ++ "+00:00".data else cs)

def hexDigitVal (c : Char) : Option Nat :=
  if c.isDigit then some (digitVal c)
  else if 'a' ≤ c ∧ c ≤ 'f' then some (c.toNat - 'a'.toNat + 10)
  else if 'A' ≤ c ∧ c ≤ 'F' then some (c.toNat - 'A'.toNat + 10)
  else none

/-- Model of `bytes.fromhex`: pairs of hex digits, with spaces permitted
between pairs; anything else (including an odd digit count) fails, which in
Python raises `ValueError`. -/
def bytesFromhex : List Char → Option (List Nat)
  | [] => some []
  | [c] => if c == ' ' then some [] else none
  | c :: d :: rest =>
    if c == ' ' then bytesFromhex (d :: rest)
    else
      match hexDigitVal c, hexDigitVal d with
      | some hi, some lo => (bytesFromhex rest).map (fun t => (hi * 16 + lo) :: t)
      | _, _ => none

/-- An event object as constructed by the classes in `src/events.py` and
handed to a handler.  The `bare` variant is an instance whose `__init__`
resolved to the no-op `_AnyEvent.__init__`, so no attribute was set on it:
this is what `LobbyMessageCreate` and the three `GameDirectMessage*`
classes produce, because in `class LobbyMessageCreate(_AnyEvent,
_BaseLobbyMessage)` the method resolution order finds `_AnyEvent.__init__`
(which does nothing) before `_BaseLobbyMessage.__init__`, and those
subclasses define no `__init__` of their own. -/
inductive PyEvent where
  | applicationAuthorized (is_guild_install is_user_install : Bool)
      (user : Json) (scopes : Json) (guild : Option Json)
  | applicationDeauthorized (user : Json)
  | entitlementCreate (id sku_id application_id : Int) (user_id : Option Int)
      (etype : Json) (deleted : Json) (starts_at ends_at : Option PyDatetime)
      (guild_id : Option Int) (consumed : Option Json)
  | lobbyMessageUpdate (edited_at created_at : PyDatetime)
  | lobbyMessageDelete (message_id lobby_id : Int)
  | bare (className : String)
deriving Repr, DecidableEq

/-- `iso_to_datetime` applied to an arbitrary decoded value: a failed parse
propagates the `ValueError` from `fromisoformat`; a non-string receiver has
no `endswith`, so Python raises `AttributeError`. -/
def asDatetime (j : Json) : Except PyError PyDatetime :=
  match j with
  | .str s =>
    match iso_to_datetime s with
    | some dt => .ok dt
    | none => .error .valueError
  | _ => .error .attributeError

/-- `int(data[k]) if data.get(k) else None`. -/
def condIntField (data : Json) (k : String) : Except PyError (Option Int) := do
  let v ← pyGet data k
  match v with
  | some j => if j.isFalsy then pure none else do pure (some (← pyInt j))
  | none => pure none

/-- `_iso_to_datetime(data[k]) if data.get(k) else None`. -/
def condTimestampField (data : Json) (k : String) : Except PyError (Option PyDatetime) := do
  let v ← pyGet data k
  match v with
  | some j => if j.isFalsy then pure none else do pure (some (← asDatetime j))
  | none => pure none

/-- `ApplicationAuthorized.__init__`. -/
def applicationAuthorizedInit (data : Json) : Except PyError PyEvent := do
  let it ← pyGet data "integration_type"
  let user ← jget data "user"
  let scopes ← jget data "scopes"
  let guild ← pyGet data "guild"
  pure (.applicationAuthorized (pyOptEqInt it 0) (pyOptEqInt it 1) user scopes guild)

/-- `ApplicationDeauthorized.__init__`. -/
def applicationDeauthorizedInit (data : Json) : Except PyError PyEvent := do
  let user ← jget data "user"
  pure (.applicationDeauthorized user)

/-- `EntitlementCreate.__init__`, with assignments in source order. -/
def entitlementCreateInit (data : Json) : Except PyError PyEvent := do
  let id ← pyInt (← jget data "id")
  let sku_id ← pyInt (← jget data "sku_id")
  let application_id ← pyInt (← jget data "application_id")
  let user_id ← condIntField data "user_id"
  let etype ← jget data "type"
  let deleted ← jget data "deleted"
  let starts_at ← condTimestampField data "starts_at"
  let ends_at ← condTimestampField data "ends_at"
  let guild_id ← condIntField data "guild_id"
  let consumed ← pyGet data "consumed"
  pure (.entitlementCreate id sku_id application_id user_id etype deleted
    starts_at ends_at guild_id consumed)

/-- The field record that `_BaseLobbyMessage.__init__` would build.  That
method is unreachable in the source: no subclass's method resolution order
ever selects it (see `PyEvent.bare`), so it is kept here as the evident
intent of the lobby-message event model. -/
structure LobbyMessageFields where
  id : Int
  mtype : Json
  content : Json
  lobby_id : Int
  channel_id : Int
  author : Json
  metadata : Option Json
  flags : Json
  application_id : Option Int
deriving Repr, DecidableEq

/-- `_BaseLobbyMessage.__init__`, assignments in source order. -/
def baseLobbyMessageInit (data : Json) : Except PyError LobbyMessageFields := do
  let id ← pyInt (← jget data "id")
  let mtype ← jget data "type"
  let content ← jget data "content"
  let lobby_id ← pyInt (← jget data "lobby_id")
  let channel_id ← pyInt (← jget data "channel_id")
  let author ← jget data "author"
  let metadata ← pyGet data "metadata"
  let flags ← jget data "flags"
  let application_id ← condIntField data "application_id"
  pure ⟨id, mtype, content, lobby_id, channel_id, author, metadata, flags, application_id⟩

/-- `LobbyMessageUpdate.__init__`: `super().__init__(data)` resolves to the
no-op `_AnyEvent.__init__` (not `_BaseLobbyMessage.__init__`), after which
only `edited_at` and `created_at` are assigned. -/
def lobbyMessageUpdateInit (data : Json) : Except PyError PyEvent := do
  let edited_at ← asDatetime (← jget data "edited_timestamp")
  let created_at ← asDatetime (← jget data "timestamp")
  pure (.lobbyMessageUpdate edited_at created_at)

/-- `LobbyMessageDelete.__init__`. -/
def lobbyMessageDeleteInit (data : Json) : Except PyError PyEvent := do
  let message_id ← pyInt (← jget data "id")
  let lobby_id ← pyInt (← jget data "lobby_id")
  pure (.lobbyMessageDelete message_id lobby_id)

/-- `self._EVENTS_MAP[event_type]` followed by `event_cls(event_data)`: the
wire name selects the class, whose constructor runs on `data`; a name
outside the map raises `KeyError`.  `LOBBY_MESSAGE_CREATE` and the three
`GAME_DIRECT_MESSAGE_*` classes construct without touching `data` (no-op
`__init__` via the method resolution order, see `PyEvent.bare`). -/
def constructEvent (event_type : String) (data : Json) : Except PyError PyEvent :=
  if event_type = "APPLICATION_AUTHORIZED" then applicationAuthorizedInit data
  else if event_type = "APPLICATION_DEAUTHORIZED" then applicationDeauthorizedInit data
  else if event_type = "ENTITLEMENT_CREATE" then entitlementCreateInit data
  else if event_type = "LOBBY_MESSAGE_CREATE" then .ok (.bare "LobbyMessageCreate")
  else if event_type = "LOBBY_MESSAGE_UPDATE" then lobbyMessageUpdateInit data
  else if event_type = "LOBBY_MESSAGE_DELETE" then lobbyMessageDeleteInit data
  else if event_type = "GAME_DIRECT_MESSAGE_CREATE" then .ok (.bare "GameDirectMessageCreate")
  else if event_type = "GAME_DIRECT_MESSAGE_UPDATE" then .ok (.bare "GameDirectMessageUpdate")
  else if event_type = "GAME_DIRECT_MESSAGE_DELETE" then .ok (.bare "GameDirectMessageDelete")
  else .error .keyError

/-- The selector passed to `Application.on_event`: one of the nine concrete
event classes, the base class `events._AnyEvent` itself (which passes the
`issubclass` check but has no entry in `_EVENTS_MAP`), or any value failing
the `isinstance`/`issubclass` check. -/
inductive EventSelector where
  | appAuthorized
  | appDeauthorized
  | entitlementCreate
  | lobbyMessageCreate
  | lobbyMessageUpdate
  | lobbyMessageDelete
  | gameDMCreate
  | gameDMUpdate
  | gameDMDelete
  | anyEventBase
  | notAnEventClass
deriving Repr, DecidableEq

/-- The reversed `_EVENTS_MAP`: class to wire name; `none` for a class with
no map entry (`KeyError` at the lookup). -/
def wireName : EventSelector → Option String
  | .appAuthorized => some "APPLICATION_AUTHORIZED"
  | .appDeauthorized => some "APPLICATION_DEAUTHORIZED"
  | .entitlementCreate => some "ENTITLEMENT_CREATE"
  | .lobbyMessageCreate => some "LOBBY_MESSAGE_CREATE"
  | .lobbyMessageUpdate => some "LOBBY_MESSAGE_UPDATE"
  | .lobbyMessageDelete => some "LOBBY_MESSAGE_DELETE"
  | .gameDMCreate => some "GAME_DIRECT_MESSAGE_CREATE"
  | .gameDMUpdate => some "GAME_DIRECT_MESSAGE_UPDATE"
  | .gameDMDelete => some "GAME_DIRECT_MESSAGE_DELETE"
  | .anyEventBase => none
  | .notAnEventClass => none

/-- A handler function object: its identity, whether it was defined with
`async def`, and its parameter count. -/
structure PyFunc where
  fid : Nat
  isCoroutine : Bool
  arity : Nat
deriving Repr, DecidableEq

/-- The registration-time exceptions of `Application.on_event`. -/
inductive RegError where
  | typeErrorNotEventClass
  | typeErrorNotCoroutine
  | typeErrorArity
  | runtimeErrorDuplicate
  | keyError
deriving Repr, DecidableEq

/-- Python `dict` assignment `d[k] = v`: replace in place when the key
exists, otherwise append. -/
def dictInsert (d : List (String × Nat)) (k : String) (v : Nat) : List (String × Nat) :=
  if d.any (fun p => p.1 == k) then
    d.map (fun p => if p.1 == k then (k, v) else p)
  else d ++ [(k, v)]

/-- `Application.on_event` applied to its decorated function, as one step:
the selector check in `on_event` itself, then the decorator's checks in
source order, then the single mutation of `_event_handlers`.  The returned
map is the post-state (unchanged on every raising path, since the
assignment is the method's last action); the second component is the raised
exception, if any. -/
def on_event (handlers : List (String × Nat)) (event_type : EventSelector)
    (func : PyFunc) : List (String × Nat) × Option RegError :=
  if event_type = .notAnEventClass then (handlers, some .typeErrorNotEventClass)
  else if !func.isCoroutine then (handlers, some .typeErrorNotCoroutine)
  else if func.arity ≠ 2 then (handlers, some .typeErrorArity)
  else if handlers.any (fun p => p.2 == func.fid) then (handlers, some .runtimeErrorDuplicate)
  else
    match wireName event_type with
    | none => (handlers, some .keyError)
    | some k => (dictInsert handlers k func.fid, none)

/-- One handler invocation performed by `_dispatch_event`: which function
object was called, with which event object and timestamp. -/
structure Invocation where
  handlerFid : Nat
  event : PyEvent
  timestamp : PyDatetime
deriving Repr, DecidableEq

/-- `Application._dispatch_event`: look the wire name up in
`_event_handlers` (a non-string key matches nothing); on a hit, construct
the event object and call the handler once. -/
def dispatch_event (handlers : List (String × Nat)) (event_type : Json)
    (event_data : Json) (timestamp : PyDatetime) : Except PyError (List Invocation) :=
  match event_type with
  | .str s =>
    match handlers.lookup s with
    | some fid => (constructEvent s event_data).map (fun ev => [⟨fid, ev, timestamp⟩])
    | none => .ok []
  | _ => .ok []

/-- An `Application` as configured before traffic: its path, hex verify
key, and `_event_handlers` map (wire name to handler function id). -/
structure AppState where
  url_path : String
  verify_key : String
  handlers : List (String × Nat)
deriving Repr, DecidableEq

/-- The inbound request as `handle_request` sees it: the two signature
headers (empty string models a missing header, matching
`headers.get(..., "")`) and the body text. -/
structure WebRequest where
  sigHeader : String
  tsHeader : String
  body : String
deriving Repr, DecidableEq

/-- The response constructed by the dispatch core. -/
structure HttpResponse where
  status : Nat
  headers : List (String × String)
  content : Option String
deriving Repr, DecidableEq

/-- The observable outcome of one request: the response and the handler
invocations performed. -/
structure HResult where
  response : HttpResponse
  invocations : List Invocation
deriving Repr, DecidableEq

def response401 : HttpResponse := ⟨401, [], some "invalid request signature"⟩

/-- The body-processing tail of `handle_request`, from `json.loads`
onward: PING answers 204 with a JSON content type; an event without data is
ignored with 204; otherwise the timestamp is parsed and the event
dispatched, answering 204 either way. -/
def processPayload (loads : String → Except PyError Json)
    (handlers : List (String × Nat)) (body_str : String) : Except PyError HResult := do
  let payload ← loads body_str
  let ptype ← jget payload "type"
  if pyEqInt ptype 0 then
    pure ⟨⟨204, [("Content-Type", "application/json")], none⟩, []⟩
  else do
    let event ← jget payload "event"
    let event_type ← jget event "type"
    let dataOpt ← pyGet event "data"
    let data := dataOpt.getD (Json.obj [])
    if data.isFalsy then
      pure ⟨⟨204, [], none⟩, []⟩
    else do
      let timestamp ← asDatetime (← jget event "timestamp")
      let invs ← dispatch_event handlers event_type data timestamp
      pure ⟨⟨204, [], none⟩, invs⟩

/-- `handle_request` from `src/_internal/handler.py`.  `edCheck` is the
Ed25519 collaborator (key bytes, signature bytes, message); `loads` is the
JSON collaborator.  The verify key is decoded first (`VerifyKey(
bytes.fromhex(...))`, 32 bytes required); missing headers answer 401; a
signature header that is not hex or not 64 bytes raises `ValueError`
uncaught; a failing verification (`BadSignatureError`, the only caught
exception) answers 401; then the payload is processed. -/
def handle_request (edCheck : List Nat → List Nat → String → Bool)
    (loads : String → Except PyError Json)
    (app : AppState) (req : WebRequest) : Except PyError HResult :=
  match bytesFromhex app.verify_key.data with
  | none => .error .valueError
  | some vkBytes =>
    if vkBytes.length ≠ 32 then .error .valueError
    else if req.sigHeader ≠ "" ∧ req.tsHeader ≠ "" then
      match bytesFromhex req.sigHeader.data with
      | none => .error .valueError
      | some sigBytes =>
        if sigBytes.length ≠ 64 then .error .valueError
        else if edCheck vkBytes sigBytes (req.tsHeader ++ req.body) then
          processPayload loads app.handlers req.body
        else .ok ⟨response401, []⟩
    else .ok ⟨response401, []⟩

/-! ## Concrete test fixtures -/

/-- A syntactically valid hex verify key (32 bytes). -/
def keyHex64 : String := String.mk (List.replicate 64 'a')

/-- A syntactically valid hex signature (64 bytes). -/
def sigHex128 : String := String.mk (List.replicate 128 'b')

/-- A well-formed `LOBBY_MESSAGE_CREATE` data object. -/
def lobbyData0 : Json := .obj [
  ("id", .str "111"), ("type", .num 0), ("content", .str "hi"),
  ("lobby_id", .str "222"), ("channel_id", .str "333"),
  ("author", .obj [("id", .str "9")]), ("flags", .num 0)]

/-- A well-formed `LOBBY_MESSAGE_CREATE` envelope. -/
def lobbyPayload0 : Json := .obj [
  ("type", .num 1),
  ("event", .obj [
    ("type", .str "LOBBY_MESSAGE_CREATE"),
    ("timestamp", .str "2025-01-01T00:00:00Z"),
    ("data", lobbyData0)])]

/-! ## Lemmas about the timestamp codec -/

theorem endsWithZ_append (xs : List Char) (y : Char) (ys : List Char) :
    endsWithZ (xs ++ y :: ys) = endsWithZ (y :: ys) := by
  induction xs with
  | nil => rfl
  | cons x xs ih =>
    cases xs with
    | nil => rfl
    | cons a as => simpa [endsWithZ] using ih

theorem dropLast_append_singleton (xs : List Char) (c : Char) :
    (xs ++ [c]).dropLast = xs := by
  simp

/-- Appending `"Z"` and appending `"+00:00"` reach the same parse: the `Z`
branch of `iso_to_datetime` strips the `Z` and appends exactly `"+00:00"`. -/
theorem iso_to_datetime_Z_eq (s : String) :
    iso_to_datetime (s ++ "Z") = iso_to_datetime (s ++ "+00:00") := by
  obtain ⟨cs⟩ := s
  have hz : (String.mk cs ++ "Z").data = cs ++ ['Z'] := rfl
  have ho : (String.mk cs ++ "+00:00").data
      = cs ++ ('+' :: '0' :: '0' :: ':' :: '0' :: '0' :: []) := rfl
  simp only [iso_to_datetime, hz, ho]
  rw [endsWithZ_append cs 'Z' [], endsWithZ_append cs '+' _]
  simp [endsWithZ, dropLast_append_singleton]

theorem on_event_unchanged_or_ok (handlers : List (String × Nat))
    (sel : EventSelector) (f : PyFunc) :
    (on_event handlers sel f).1 = handlers ∨ (on_event handlers sel f).2 = none := by
  by_cases h1 : sel = .notAnEventClass
  · simp [on_event, h1]
  · by_cases h2 : f.isCoroutine
    · by_cases h3 : f.arity = 2
      · by_cases h4 : handlers.any (fun p => p.2 == f.fid)
        · simp [on_event, h1, h2, h3, h4]
        · cases hw : wireName sel <;> simp [on_event, h1, h2, h3, h4, hw]
      · simp [on_event, h1, h2, h3]
    · simp [on_event, h1, h2]

/-! ## Claim theorems -/

/-- C8: for every string `s`, `iso_to_datetime (s ++ "Z")` equals
`iso_to_datetime (s ++ "+00:00")`; in particular at
`"2025-01-01T00:00:00Z"`, where the parsed result carries an explicit UTC
offset (it is timezone-aware). -/
theorem C8_Z_normalization :
    (∀ s : String, iso_to_datetime (s ++ "Z") = iso_to_datetime (s ++ "+00:00"))
    ∧ iso_to_datetime "2025-01-01T00:00:00Z" = iso_to_datetime "2025-01-01T00:00:00+00:00"
    ∧ ∃ dt, iso_to_datetime "2025-01-01T00:00:00Z" = some dt
        ∧ dt.utcoffsetMinutes = some 0 := by
  refine ⟨iso_to_datetime_Z_eq, iso_to_datetime_Z_eq "2025-01-01T00:00:00", ?_⟩
  exact ⟨⟨2025, 1, 1, 0, 0, 0, 0, some 0⟩, by decide, rfl⟩

/-- C1 counterexample: with handler function 1 registered for
`ENTITLEMENT_CREATE`, registering the distinct coroutine function 2 for the
same event type is not rejected — `on_event` succeeds (no exception) and
silently replaces the original registration, contradicting the claim that a
second handler for an already-handled type raises a duplicate-handler error
and leaves the original in place. -/
theorem C1_counterexample :
    on_event [("ENTITLEMENT_CREATE", 1)] .entitlementCreate ⟨2, true, 2⟩
      = ([("ENTITLEMENT_CREATE", 2)], none) := by decide

/-- C1 (amended): registering a second handler for an event type that
already has one is rejected (with the duplicate `RuntimeError`) only when
the new handler is a function object already registered somewhere;
a distinct, well-formed function is accepted and silently replaces the
original registration for that type. -/
theorem C1_amended (handlers : List (String × Nat)) (sel : EventSelector)
    (f g : PyFunc) (k : String)
    (hk : wireName sel = some k)
    (hf1 : f.isCoroutine = true) (hf2 : f.arity = 2)
    (hfdup : handlers.any (fun p => p.2 == f.fid) = true)
    (hg1 : g.isCoroutine = true) (hg2 : g.arity = 2)
    (hgnew : handlers.any (fun p => p.2 == g.fid) = false) :
    (on_event handlers sel f).2 = some .runtimeErrorDuplicate
    ∧ on_event handlers sel g = (dictInsert handlers k g.fid, none) := by
  have hsel : sel ≠ .notAnEventClass := by
    intro h; rw [h] at hk; exact Option.noConfusion hk
  constructor
  · simp [on_event, hsel, hf1, hf2, hfdup]
  · simp [on_event, hsel, hg1, hg2, hgnew, hk]

/-- C1 witness: the amended claim at concrete inputs — re-registering
function 1 (already handling `ENTITLEMENT_CREATE`) errors, while the
distinct function 2 replaces it. -/
theorem C1_witness :
    (on_event [("ENTITLEMENT_CREATE", 1)] .entitlementCreate ⟨1, true, 2⟩).2
        = some .runtimeErrorDuplicate
    ∧ on_event [("ENTITLEMENT_CREATE", 1)] .entitlementCreate ⟨2, true, 2⟩
        = (dictInsert [("ENTITLEMENT_CREATE", 1)] "ENTITLEMENT_CREATE" 2, none) := by
  have h := C1_amended [("ENTITLEMENT_CREATE", 1)] .entitlementCreate
    ⟨1, true, 2⟩ ⟨2, true, 2⟩ "ENTITLEMENT_CREATE"
    rfl rfl rfl (by decide) rfl rfl (by decide)
  exact ⟨h.1, (C1_amended [("ENTITLEMENT_CREATE", 1)] .entitlementCreate
    ⟨1, true, 2⟩ ⟨2, true, 2⟩ "ENTITLEMENT_CREATE"
    rfl rfl rfl (by decide) rfl rfl (by decide)).2⟩

/-- C4: a function object already registered under some event type (its id
appears among the handler map's values) is rejected with the duplicate
`RuntimeError` when registered again under any event selector, including a
different event type. -/
theorem C4_same_function_rejected (handlers : List (String × Nat))
    (sel : EventSelector) (f : PyFunc)
    (hsel : sel ≠ .notAnEventClass)
    (h1 : f.isCoroutine = true) (h2 : f.arity = 2)
    (hdup : handlers.any (fun p => p.2 == f.fid) = true) :
    (on_event handlers sel f).2 = some .runtimeErrorDuplicate := by
  simp [on_event, hsel, h1, h2, hdup]

/-- C4 witness: function 1 handles `ENTITLEMENT_CREATE`; registering it for
`LobbyMessageCreate` raises the duplicate error. -/
theorem C4_witness :
    (on_event [("ENTITLEMENT_CREATE", 1)] .lobbyMessageCreate ⟨1, true, 2⟩).2
      = some RegError.runtimeErrorDuplicate :=
  C4_same_function_rejected [("ENTITLEMENT_CREATE", 1)] .lobbyMessageCreate
    ⟨1, true, 2⟩ (by decide) rfl rfl (by decide)

/-- C10: whenever `on_event` raises (whatever the exception), the handler
map after the call is exactly the map before it — the single mutation is
the method's last action, so every raising path leaves the registration
state untouched. -/
theorem C10_registration_atomic (handlers : List (String × Nat))
    (sel : EventSelector) (f : PyFunc) (e : RegError)
    (h : (on_event handlers sel f).2 = some e) :
    (on_event handlers sel f).1 = handlers := by
  rcases on_event_unchanged_or_ok handlers sel f with h1 | h2
  · exact h1
  · rw [h] at h2; exact Option.noConfusion h2

/-- C10 witness: registering under `events._AnyEvent` itself passes the
subclass check but dies at the reversed-map lookup (`KeyError`), and the
nonempty handler map is unchanged. -/
theorem C10_witness :
    (on_event [("ENTITLEMENT_CREATE", 1)] .anyEventBase ⟨2, true, 2⟩).2
        = some RegError.keyError
    ∧ (on_event [("ENTITLEMENT_CREATE", 1)] .anyEventBase ⟨2, true, 2⟩).1
        = [("ENTITLEMENT_CREATE", 1)] :=
  ⟨by decide, C10_registration_atomic [("ENTITLEMENT_CREATE", 1)] .anyEventBase
    ⟨2, true, 2⟩ .keyError (by decide)⟩

/-- C7: when either signature header is missing (empty), the response is
401 with body `"invalid request signature"` and no handler runs —
independent of the body and of the JSON collaborator, which is never
consulted. -/
theorem C7_missing_header_401 (edCheck : List Nat → List Nat → String → Bool)
    (loads : String → Except PyError Json) (app : AppState) (req : WebRequest)
    (vk : List Nat)
    (hkey : bytesFromhex app.verify_key.data = some vk) (hklen : vk.length = 32)
    (hmiss : req.sigHeader = "" ∨ req.tsHeader = "") :
    handle_request edCheck loads app req = .ok ⟨response401, []⟩ := by
  have hcond : ¬ (req.sigHeader ≠ "" ∧ req.tsHeader ≠ "") := by
    rcases hmiss with h | h <;> simp [h]
  unfold handle_request
  rw [hkey]
  simp [hklen, hcond]

/-- C7 witness: a request with an empty signature header, a body that the
JSON collaborator would reject, and a handler registered — still 401 with
no parsing and no invocation. -/
theorem C7_witness :
    handle_request (fun _ _ _ => true) (fun _ => .error .valueError)
        ⟨"/w", keyHex64, [("ENTITLEMENT_CREATE", 5)]⟩ ⟨"", "123", "not json"⟩
      = .ok ⟨response401, []⟩ :=
  C7_missing_header_401 (fun _ _ _ => true) (fun _ => .error .valueError)
    ⟨"/w", keyHex64, [("ENTITLEMENT_CREATE", 5)]⟩ ⟨"", "123", "not json"⟩
    (List.replicate 32 170) (by decide) (by decide) (Or.inl rfl)

/-- C5: a request passing signature verification whose payload has
top-level `type` equal to `0` (PING) is answered 204 with the header
`Content-Type: application/json`, and no handler is invoked. -/
theorem C5_ping_204_json (edCheck : List Nat → List Nat → String → Bool)
    (loads : String → Except PyError Json) (app : AppState) (req : WebRequest)
    (vk sigBytes : List Nat) (payload tval : Json)
    (hkey : bytesFromhex app.verify_key.data = some vk) (hklen : vk.length = 32)
    (hsig : req.sigHeader ≠ "") (hts : req.tsHeader ≠ "")
    (hhex : bytesFromhex req.sigHeader.data = some sigBytes)
    (hslen : sigBytes.length = 64)
    (hver : edCheck vk sigBytes (req.tsHeader ++ req.body) = true)
    (hload : loads req.body = .ok payload)
    (hty : jget payload "type" = .ok tval)
    (h0 : pyEqInt tval 0 = true) :
    handle_request edCheck loads app req
      = .ok ⟨⟨204, [("Content-Type", "application/json")], none⟩, []⟩ := by
  unfold handle_request
  rw [hkey, hhex]
  simp [hsig, hts, hklen, hslen, hver, processPayload, hload, hty, h0,
    Bind.bind, Except.bind, Pure.pure, Except.pure]

/-- C5 witness: a concrete PING (`type: 0`) request through a passing
signature check, with a handler registered, yields 204 with the JSON
content type and zero invocations. -/
theorem C5_witness :
    handle_request (fun _ _ _ => true) (fun _ => .ok (Json.obj [("type", .num 0)]))
        ⟨"/w", keyHex64, [("ENTITLEMENT_CREATE", 5)]⟩ ⟨sigHex128, "123", "ping"⟩
      = .ok ⟨⟨204, [("Content-Type", "application/json")], none⟩, []⟩ :=
  C5_ping_204_json (fun _ _ _ => true) (fun _ => .ok (Json.obj [("type", .num 0)]))
    ⟨"/w", keyHex64, [("ENTITLEMENT_CREATE", 5)]⟩ ⟨sigHex128, "123", "ping"⟩
    (List.replicate 32 170) (List.replicate 64 187)
    (Json.obj [("type", .num 0)]) (.num 0)
    (by decide) (by decide) (by decide) (by decide) (by decide) (by decide)
    rfl rfl (by decide) (by decide)

/-- C6: a verified non-PING event whose `data` is absent or an empty object
is answered 204 with no handler invocation, whatever handlers are
registered; the branch needs no `timestamp` field and constructs no event
object (no hypothesis about either is required). -/
theorem C6_empty_data_204 (edCheck : List Nat → List Nat → String → Bool)
    (loads : String → Except PyError Json) (app : AppState) (req : WebRequest)
    (vk sigBytes : List Nat) (payload tval ev : Json) (dataOpt : Option Json)
    (hkey : bytesFromhex app.verify_key.data = some vk) (hklen : vk.length = 32)
    (hsig : req.sigHeader ≠ "") (hts : req.tsHeader ≠ "")
    (hhex : bytesFromhex req.sigHeader.data = some sigBytes)
    (hslen : sigBytes.length = 64)
    (hver : edCheck vk sigBytes (req.tsHeader ++ req.body) = true)
    (hload : loads req.body = .ok payload)
    (hty : jget payload "type" = .ok tval)
    (h0 : pyEqInt tval 0 = false)
    (hev : jget payload "event" = .ok ev)
    (hevty : ∃ tv, jget ev "type" = .ok tv)
    (hdata : pyGet ev "data" = .ok dataOpt)
    (hfalsy : (dataOpt.getD (Json.obj [])).isFalsy = true) :
    handle_request edCheck loads app req = .ok ⟨⟨204, [], none⟩, []⟩ := by
  obtain ⟨tv, hevty⟩ := hevty
  unfold handle_request
  rw [hkey, hhex]
  simp [hsig, hts, hklen, hslen, hver, processPayload, hload, hty, h0,
    hev, hevty, hdata, hfalsy, Bind.bind, Except.bind, Pure.pure, Except.pure]

/-- C6 witness: an `ENTITLEMENT_CREATE` envelope with `data: {}` and no
`timestamp` field at all, while a handler for that type is registered —
still 204 and no invocation (had the branch parsed the timestamp or built
the event, the result would have been an exception). -/
theorem C6_witness :
    handle_request (fun _ _ _ => true)
        (fun _ => .ok (Json.obj [("type", .num 1),
          ("event", Json.obj [("type", .str "ENTITLEMENT_CREATE"),
                              ("data", Json.obj [])])]))
        ⟨"/w", keyHex64, [("ENTITLEMENT_CREATE", 5)]⟩ ⟨sigHex128, "123", "b"⟩
      = .ok ⟨⟨204, [], none⟩, []⟩ :=
  C6_empty_data_204 (fun _ _ _ => true)
    (fun _ => .ok (Json.obj [("type", .num 1),
      ("event", Json.obj [("type", .str "ENTITLEMENT_CREATE"),
                          ("data", Json.obj [])])]))
    ⟨"/w", keyHex64, [("ENTITLEMENT_CREATE", 5)]⟩ ⟨sigHex128, "123", "b"⟩
    (List.replicate 32 170) (List.replicate 64 187)
    (Json.obj [("type", .num 1),
      ("event", Json.obj [("type", .str "ENTITLEMENT_CREATE"),
                          ("data", Json.obj [])])])
    (.num 1)
    (Json.obj [("type", .str "ENTITLEMENT_CREATE"), ("data", Json.obj [])])
    (some (Json.obj []))
    (by decide) (by decide) (by decide) (by decide) (by decide) (by decide)
    rfl rfl (by decide) rfl rfl ⟨.str "ENTITLEMENT_CREATE", rfl⟩ rfl (by decide)

/-- C9: a verified non-PING event with non-empty data whose type has no
registered handler is answered 204 with zero invocations and no exception —
the same response as when a handler is found. -/
theorem C9_no_handler_silently_204 (edCheck : List Nat → List Nat → String → Bool)
    (loads : String → Except PyError Json) (app : AppState) (req : WebRequest)
    (vk sigBytes : List Nat) (payload tval ev tj : Json) (ety : String)
    (dataOpt : Option Json) (ts : PyDatetime)
    (hkey : bytesFromhex app.verify_key.data = some vk) (hklen : vk.length = 32)
    (hsig : req.sigHeader ≠ "") (hts : req.tsHeader ≠ "")
    (hhex : bytesFromhex req.sigHeader.data = some sigBytes)
    (hslen : sigBytes.length = 64)
    (hver : edCheck vk sigBytes (req.tsHeader ++ req.body) = true)
    (hload : loads req.body = .ok payload)
    (hty : jget payload "type" = .ok tval)
    (h0 : pyEqInt tval 0 = false)
    (hev : jget payload "event" = .ok ev)
    (hevty : jget ev "type" = .ok (.str ety))
    (hdata : pyGet ev "data" = .ok dataOpt)
    (hfalsy : (dataOpt.getD (Json.obj [])).isFalsy = false)
    (htj : jget ev "timestamp" = .ok tj)
    (hparse : asDatetime tj = .ok ts)
    (hnone : app.handlers.lookup ety = none) :
    handle_request edCheck loads app req = .ok ⟨⟨204, [], none⟩, []⟩ := by
  unfold handle_request
  rw [hkey, hhex]
  simp [hsig, hts, hklen, hslen, hver, processPayload, hload, hty, h0,
    hev, hevty, hdata, hfalsy, htj, hparse, dispatch_event, hnone,
    Bind.bind, Except.bind, Pure.pure, Except.pure]

/-- C9 witness: a well-formed `LOBBY_MESSAGE_CREATE` request against an
application whose only handler is for `ENTITLEMENT_CREATE` — 204, no
invocation, no exception. -/
theorem C9_witness :
    handle_request (fun _ _ _ => true) (fun _ => .ok lobbyPayload0)
        ⟨"/w", keyHex64, [("ENTITLEMENT_CREATE", 5)]⟩ ⟨sigHex128, "123", "b"⟩
      = .ok ⟨⟨204, [], none⟩, []⟩ :=
  C9_no_handler_silently_204 (fun _ _ _ => true) (fun _ => .ok lobbyPayload0)
    ⟨"/w", keyHex64, [("ENTITLEMENT_CREATE", 5)]⟩ ⟨sigHex128, "123", "b"⟩
    (List.replicate 32 170) (List.replicate 64 187)
    lobbyPayload0 (.num 1)
    (Json.obj [("type", .str "LOBBY_MESSAGE_CREATE"),
               ("timestamp", .str "2025-01-01T00:00:00Z"),
               ("data", lobbyData0)])
    (.str "2025-01-01T00:00:00Z") "LOBBY_MESSAGE_CREATE" (some lobbyData0)
    ⟨2025, 1, 1, 0, 0, 0, 0, some 0⟩
    (by decide) (by decide) (by decide) (by decide) (by decide) (by decide)
    rfl rfl (by decide) rfl (by decide) (by decide) (by decide) (by decide)
    (by decide) (by decide) (by decide)

/-- C2 counterexample: with a valid application key and both headers
present, a signature header that is not hex (`"zz"`) does not produce the
401 response the claim requires — the dispatch core raises an uncaught
`ValueError` (from `bytes.fromhex`) instead. -/
theorem C2_counterexample :
    handle_request (fun _ _ _ => true) (fun _ => .ok (Json.obj []))
        ⟨"/w", keyHex64, []⟩ ⟨"zz", "123", "b"⟩ = .error .valueError
    ∧ handle_request (fun _ _ _ => true) (fun _ => .ok (Json.obj []))
        ⟨"/w", keyHex64, []⟩ ⟨"zz", "123", "b"⟩
      ≠ .ok ⟨response401, []⟩ := by decide

/-- C2 (amended): a non-empty `X-Signature-Ed25519` header that is not
valid hex, or whose hex decodes to other than 64 bytes, makes the dispatch
core raise an uncaught `ValueError` (no HTTP response at all) — a distinct
observable outcome from the 401 returned for a well-formed but failing
signature. -/
theorem C2_amended (edCheck : List Nat → List Nat → String → Bool)
    (loads : String → Except PyError Json) (app : AppState) (req : WebRequest)
    (vk : List Nat)
    (hkey : bytesFromhex app.verify_key.data = some vk) (hklen : vk.length = 32)
    (hsig : req.sigHeader ≠ "") (hts : req.tsHeader ≠ "")
    (hbad : bytesFromhex req.sigHeader.data = none
      ∨ ∃ bs, bytesFromhex req.sigHeader.data = some bs ∧ bs.length ≠ 64) :
    handle_request edCheck loads app req = .error .valueError := by
  unfold handle_request
  rw [hkey]
  rcases hbad with h | ⟨bs, h, hlen⟩
  · simp [hklen, hsig, hts, h]
  · simp [hklen, hsig, hts, h, hlen]

/-- C2 witness: the amended claim at a wrong-length (but valid hex)
signature header, which also raises `ValueError`. -/
theorem C2_witness :
    handle_request (fun _ _ _ => true) (fun _ => .ok (Json.obj []))
        ⟨"/w", keyHex64, []⟩ ⟨"abcd", "123", "b"⟩ = .error .valueError :=
  C2_amended (fun _ _ _ => true) (fun _ => .ok (Json.obj []))
    ⟨"/w", keyHex64, []⟩ ⟨"abcd", "123", "b"⟩ (List.replicate 32 170)
    (by decide) (by decide) (by decide) (by decide)
    (Or.inr ⟨[171, 205], by decide, by decide⟩)

/-- C3: evaluation of the code at a well-formed, verified
`LOBBY_MESSAGE_CREATE` request with a registered handler.  The handler is
invoked exactly once and the timestamp argument is the codec's parse of
`event.timestamp`, but the event object passed to it is an attribute-less
instance (`PyEvent.bare`): `LobbyMessageCreate`'s method resolution order
selects the no-op `_AnyEvent.__init__`, so `id`, `lobby_id` and
`channel_id` are never set — while `_BaseLobbyMessage.__init__`, which the
claim (and the spec's data model) describes, would have parsed them to the
integers 111, 222 and 333. -/
theorem C3_event_fields_never_parsed :
    handle_request (fun _ _ _ => true) (fun _ => .ok lobbyPayload0)
        ⟨"/w", keyHex64, [("LOBBY_MESSAGE_CREATE", 7)]⟩ ⟨sigHex128, "123", "b"⟩
      = .ok ⟨⟨204, [], none⟩,
          [⟨7, .bare "LobbyMessageCreate", ⟨2025, 1, 1, 0, 0, 0, 0, some 0⟩⟩]⟩
    ∧ baseLobbyMessageInit lobbyData0
      = .ok ⟨111, .num 0, .str "hi", 222, 333, .obj [("id", .str "9")],
             none, .num 0, none⟩ := by decide
